import Mathlib

/-!
Verification of the build-configuration resolution and packaging pipeline of
the GitHub-Actions-Build-Service repository (cli/enhanced-build-service.js and
the basic build-service CLI), as a shallow embedding in Lean 4.

Conventions of the embedding:
- JavaScript values that the code tests with strict equality or truthiness
  are modelled by `JSValue`; fields the code treats as strings (or absent)
  are modelled by `Option String`, with JS truthiness of a string being
  nonemptiness.
- Filesystem reads and the two network collaborators (storage upload,
  CI dispatch) are inputs of the pipeline model: the pipeline function maps
  an environment that fixes their outcomes to an observable outcome record
  (which phases ran, which network calls were attempted, whether the
  temporary archive was deleted).
-/

/-- A JavaScript value, as far as the config-mapping code distinguishes them:
the code tests fields with `=== true` and with truthiness. -/
inductive JSValue where
  | undefined
  | null
  | bool (b : Bool)
  | num (n : Int)
  | str (s : String)
deriving DecidableEq, Repr

/-- JS truthiness of a `JSValue` (undefined, null, false, 0 and the empty
string are falsy). -/
def JSValue.truthy : JSValue → Bool
  | .undefined => false
  | .null => false
  | .bool b => b
  | .num n => n != 0
  | .str s => s != ""

/-- JS strict equality `v === true`. -/
def JSValue.strictEqTrue : JSValue → Bool
  | .bool true => true
  | _ => false

/-- JS truthiness of an optional string field (absent and `""` are falsy). -/
def optStrTruthy : Option String → Bool
  | none => false
  | some s => s != ""

/-- The `android` block of an eas.json build profile
(`profileConfig.android`): optional `buildType` and `gradleCommand`. -/
structure AndroidProfile where
  buildType : Option String := none
  gradleCommand : Option String := none
deriving DecidableEq, Repr

/-- An eas.json build profile entry (`profileConfig`), with the fields the
mapping code reads. -/
structure ProfileConfig where
  developmentClient : JSValue := .undefined
  distribution : Option String := none
  android : Option AndroidProfile := none
  env : Option (List (String × String)) := none
  autoIncrement : JSValue := .undefined
deriving DecidableEq, Repr

/-- The build configuration record produced by `mapProfileToConfig`. -/
structure BuildConfig where
  variant : String
  buildType : String
  gradleCommand : Option String
  env : List (String × String)
  autoIncrement : Bool
  distribution : String
deriving DecidableEq, Repr

/-- The initial `config` object of `mapProfileToConfig`
(enhanced-build-service.js lines 55-62). -/
def defaultBuildConfig : BuildConfig :=
  { variant := "release"
    buildType := "apk"
    gradleCommand := none
    env := []
    autoIncrement := false
    distribution := "internal" }

/-- Step of `mapProfileToConfig`, lines 70-73:
`if (profileConfig.developmentClient === true) config.variant = "debug"`. -/
def applyDevelopmentClient (pc : ProfileConfig) (c : BuildConfig) : BuildConfig :=
  if pc.developmentClient.strictEqTrue then { c with variant := "debug" } else c

/-- Step of `mapProfileToConfig`, lines 76-78:
`if (profileConfig.distribution) config.distribution = profileConfig.distribution`. -/
def applyDistribution (pc : ProfileConfig) (c : BuildConfig) : BuildConfig :=
  if optStrTruthy pc.distribution then { c with distribution := pc.distribution.getD "" }
  else c

/-- Step of `mapProfileToConfig`, lines 81-91: copy `android.buildType` and
`android.gradleCommand` when truthy. -/
def applyAndroid (pc : ProfileConfig) (c : BuildConfig) : BuildConfig :=
  match pc.android with
  | some a =>
    let c1 := if optStrTruthy a.buildType then { c with buildType := a.buildType.getD "" }
      else c
    if optStrTruthy a.gradleCommand then { c1 with gradleCommand := a.gradleCommand }
    else c1
  | none => c

/-- Step of `mapProfileToConfig`, lines 94-97:
`if (profileConfig.env) config.env = profileConfig.env`. -/
def applyEnv (pc : ProfileConfig) (c : BuildConfig) : BuildConfig :=
  match pc.env with
  | some e => { c with env := e }
  | none => c

/-- Step of `mapProfileToConfig`, lines 100-103:
`if (profileConfig.autoIncrement === true) config.autoIncrement = true`. -/
def applyAutoIncrement (pc : ProfileConfig) (c : BuildConfig) : BuildConfig :=
  if pc.autoIncrement.strictEqTrue then { c with autoIncrement := true } else c

/-- `mapProfileToConfig(profile, profileConfig)`
(enhanced-build-service.js lines 54-106).  The `profile` name argument is
only used for logging and is omitted.  A missing profile (`profileConfig`
undefined) yields the defaults; otherwise the fields of the profile are applied
to the default config in source order. -/
def mapProfileToConfig (profileConfig : Option ProfileConfig) : BuildConfig :=
  match profileConfig with
  | none => defaultBuildConfig
  | some pc =>
    applyAutoIncrement pc (applyEnv pc (applyAndroid pc
      (applyDistribution pc (applyDevelopmentClient pc defaultBuildConfig))))

/-- JS `s.charAt(0).toUpperCase() + s.slice(1)` for the variant string
(enhanced-build-service.js line 116). -/
def capitalizeFirst (s : String) : String :=
  match s.data with
  | [] => ""
  | c :: rest => String.mk (c.toUpper :: rest)

/-- `getGradleCommand(config)` (enhanced-build-service.js lines 109-123). -/
def getGradleCommand (config : BuildConfig) : String :=
  if optStrTruthy config.gradleCommand then
    config.gradleCommand.getD ""
  else
    let variantCapitalized := capitalizeFirst config.variant
    if config.buildType = "aab" then "bundle" ++ variantCapitalized
    else "assemble" ++ variantCapitalized

/-- The `client_payload` of the repository-dispatch request built by
`triggerBuild` (enhanced-build-service.js lines 213-225). -/
structure ClientPayload where
  source_url : String
  build_id : String
  platform : String
  variant : String
  build_type : String
  gradle_command : String
  auto_increment : Bool
  env : List (String × String)
deriving DecidableEq, Repr

/-- The pure payload construction inside `triggerBuild`
(enhanced-build-service.js lines 210-225). -/
def mkPayload (sourceUrl buildId : String) (buildConfig : BuildConfig) : ClientPayload :=
  { source_url := sourceUrl
    build_id := buildId
    platform := "android"
    variant := buildConfig.variant
    build_type := buildConfig.buildType
    gradle_command := getGradleCommand buildConfig
    auto_increment := buildConfig.autoIncrement
    env := buildConfig.env }

/-- Parse state of the eas.json document of the project, as `loadEasConfig`
distinguishes it: absent, present but not valid JSON, or parsed. -/
inductive EasDocState where
  | absent
  | unparseable
  | parsed (build : Option (List (String × ProfileConfig)))
deriving DecidableEq, Repr

/-- `loadEasConfig(projectPath)` (enhanced-build-service.js lines 36-51):
returns the parsed document, or null when the file is absent or fails to
parse (both logged, never thrown). The document is reduced to its `build`
key, the only part the pipeline reads. -/
def loadEasConfig : EasDocState → Option (Option (List (String × ProfileConfig)))
  | .absent => none
  | .unparseable => none
  | .parsed b => some b

/-- The optional-chained profile lookup `easConfig?.build?.[profile]`
(enhanced-build-service.js line 272). -/
def lookupProfile (easConfig : Option (Option (List (String × ProfileConfig))))
    (profile : String) : Option ProfileConfig :=
  match easConfig with
  | none => none
  | some none => none
  | some (some b) => (b.find? (fun kv => kv.1 = profile)).map Prod.snd

/-- JS whitespace as far as `.buildignore` lines use it. -/
def isJsWhitespace (c : Char) : Bool :=
  c = ' ' || c = '\t' || c = '\r' || c = '\n'

/-- JS `content.split` on the newline character, by structural recursion on the characters. -/
def splitOnNewlineAux : List Char → List Char → List (List Char)
  | [], acc => [acc.reverse]
  | c :: rest, acc =>
    if c = '\n' then acc.reverse :: splitOnNewlineAux rest []
    else splitOnNewlineAux rest (c :: acc)

/-- JS `content.split` on the newline character on strings. -/
def splitOnNewline (content : String) : List String :=
  (splitOnNewlineAux content.data []).map String.mk

/-- JS `line.trim()`: strip leading and trailing whitespace. -/
def jsTrim (line : String) : String :=
  String.mk (((line.data.dropWhile isJsWhitespace).reverse.dropWhile
    isJsWhitespace).reverse)

/-- JS `line.startsWith` with the hash character. -/
def startsWithHash (line : String) : Bool :=
  match line.data with
  | c :: _ => c = '#'
  | [] => false

/-- JS `line.endsWith` with the slash character. -/
def endsWithSlash (line : String) : Bool :=
  match line.data.getLast? with
  | some c => c = '/'
  | none => false

/-- Parsing of the content of a `.buildignore` file
(enhanced-build-service.js lines 146-151): split on newlines, trim, drop
blank lines and comment lines, and turn trailing-slash entries into
recursive globs. -/
def parseBuildIgnore (content : String) : List String :=
  (((splitOnNewline content).map jsTrim
    |>.filter (fun line => line != "" && !(startsWithHash line)))
    |>.map (fun line => if endsWithSlash line then line ++ "**" else line))

/-- The built-in default exclusion patterns
(enhanced-build-service.js lines 156-169). -/
def defaultExcludeList : List String :=
  ["node_modules/**", ".git/**", ".expo/**", "dist/**", "build/**",
   ".vscode/**", "*.log", "android/app/build/**", "android/.gradle/**",
   "android/build/**", "ios/build/**", "ios/Pods/**"]

/-- The effective ignore list computed inside `packageProject`
(enhanced-build-service.js lines 142-171): patterns parsed from
`.buildignore` when the file exists, the built-in defaults when the parsed
list is empty, and the `excludePatterns` of the caller appended last.
`buildIgnoreFile` is the content of the file when it exists, `none` otherwise. -/
def effectiveExcludes (buildIgnoreFile : Option String)
    (excludePatterns : List String) : List String :=
  let buildIgnorePatterns := match buildIgnoreFile with
    | some content => parseBuildIgnore content
    | none => []
  let defaultExcludes :=
    if buildIgnorePatterns.length > 0 then buildIgnorePatterns
    else defaultExcludeList
  defaultExcludes ++ excludePatterns

/-- The flat credential/configuration store read from
`~/.build-service.json`; every field is optional in the stored JSON. -/
structure ServiceConfig where
  appwriteEndpoint : Option String := none
  appwriteProject : Option String := none
  appwriteKey : Option String := none
  appwriteBucket : Option String := none
  githubToken : Option String := none
  githubRepo : Option String := none
deriving DecidableEq, Repr

/-- `loadConfig()` of the enhanced service
(enhanced-build-service.js lines 27-33): exits with an error when the
configuration file does not exist, otherwise returns the parsed contents
unexamined (no per-field validation). -/
def loadConfig : Option ServiceConfig → Except String ServiceConfig
  | none => .error "Configuration not found. Run: build-service configure"
  | some c => .ok c

/-- The six-field truthiness validation of the build action of the basic CLI
(`!config.appwriteEndpoint || ... || !config.githubRepo`). -/
def validateConfig (c : ServiceConfig) : Bool :=
  optStrTruthy c.appwriteEndpoint && optStrTruthy c.appwriteProject &&
  optStrTruthy c.appwriteKey && optStrTruthy c.appwriteBucket &&
  optStrTruthy c.githubToken && optStrTruthy c.githubRepo

/-- `loadConfig()` of the basic CLI: reads the file when it exists,
otherwise leaves the config object empty. -/
def basicLoadConfig : Option ServiceConfig → ServiceConfig
  | none => {}
  | some c => c

/-- Environment of one invocation of the enhanced `build(options)` pipeline:
the state of the configuration file, the eas.json state, the requested profile,
whether the project root exists as a directory, and the outcomes of the
archive write, the storage upload and the CI dispatch.  The enhanced
pipeline performs no check of `projectRootExists` (see `runBuild`); the
field is part of the environment because the basic CLI does observe it
(its `readdirSync` throws on a nonexistent root). -/
structure BuildEnv where
  configFile : Option ServiceConfig
  easDoc : EasDocState
  profile : String
  projectRootExists : Bool
  archiverOk : Bool
  uploadOk : Bool
  dispatchOk : Bool
deriving DecidableEq, Repr

/-- Observable outcome of one enhanced `build(options)` invocation. -/
structure BuildOutcome where
  reachedResolving : Bool
  reachedPackaging : Bool
  uploadAttempted : Bool
  dispatchAttempted : Bool
  archiveDeleted : Bool
  success : Bool
deriving DecidableEq, Repr

/-- The enhanced `build(options)` pipeline
(enhanced-build-service.js lines 257-303) as a function from environment to
outcome.  `loadConfig` aborts only on a missing file; resolving
(`loadEasConfig` + `mapProfileToConfig`) is total.  `packageProject`
(lines 126-182) never checks that `projectPath` exists: `fs.existsSync` is
applied only to the `.buildignore` path, and `archive.glob` with a
nonexistent `cwd` matches nothing (its directory walker resolves a missing
directory to an empty listing rather than an error), so a missing project
root still finalizes an (empty) archive and the pipeline proceeds;
packaging fails only when the archiver or the output stream errors
(`archiverOk`).  A rejected upload or dispatch lands in the catch block,
which logs and exits without deleting the archive;
`fs.unlinkSync(packagePath)` runs only after a successful dispatch. -/
def runBuild (env : BuildEnv) : BuildOutcome :=
  match loadConfig env.configFile with
  | .error _ =>
    { reachedResolving := false, reachedPackaging := false
      uploadAttempted := false, dispatchAttempted := false
      archiveDeleted := false, success := false }
  | .ok _config =>
    let easConfig := loadEasConfig env.easDoc
    let _buildConfig := mapProfileToConfig (lookupProfile easConfig env.profile)
    if !env.archiverOk then
      { reachedResolving := true, reachedPackaging := true
        uploadAttempted := false, dispatchAttempted := false
        archiveDeleted := false, success := false }
    else if !env.uploadOk then
      { reachedResolving := true, reachedPackaging := true
        uploadAttempted := true, dispatchAttempted := false
        archiveDeleted := false, success := false }
    else if !env.dispatchOk then
      { reachedResolving := true, reachedPackaging := true
        uploadAttempted := true, dispatchAttempted := true
        archiveDeleted := false, success := false }
    else
      { reachedResolving := true, reachedPackaging := true
        uploadAttempted := true, dispatchAttempted := true
        archiveDeleted := true, success := true }

/-- Observable outcome of one basic-CLI `build` invocation. -/
structure BasicOutcome where
  packagingAttempted : Bool
  uploadAttempted : Bool
  dispatchAttempted : Bool
  tempDirRemoved : Bool
  success : Bool
deriving DecidableEq, Repr

/-- The build action of the basic CLI as a function of its environment: load the
config (empty object when the file is absent), exit when any of the six
fields is falsy, then package (readdirSync throws when the project root
does not exist), upload, dispatch; `fs.rmSync(tempDir, ...)` runs only
after a successful dispatch, and any thrown error lands in the catch block
which exits without cleanup. -/
def runBasicBuild (configFile : Option ServiceConfig)
    (projectRootExists tarOk uploadOk dispatchOk : Bool) : BasicOutcome :=
  if !validateConfig (basicLoadConfig configFile) then
    { packagingAttempted := false, uploadAttempted := false
      dispatchAttempted := false, tempDirRemoved := false, success := false }
  else if !projectRootExists || !tarOk then
    { packagingAttempted := true, uploadAttempted := false
      dispatchAttempted := false, tempDirRemoved := false, success := false }
  else if !uploadOk then
    { packagingAttempted := true, uploadAttempted := true
      dispatchAttempted := false, tempDirRemoved := false, success := false }
  else if !dispatchOk then
    { packagingAttempted := true, uploadAttempted := true
      dispatchAttempted := true, tempDirRemoved := false, success := false }
  else
    { packagingAttempted := true, uploadAttempted := true
      dispatchAttempted := true, tempDirRemoved := true, success := true }

/-- A fully-populated credential store, for concrete runs. -/
def fullServiceConfig : ServiceConfig :=
  { appwriteEndpoint := some "https://cloud.appwrite.io/v1"
    appwriteProject := some "proj"
    appwriteKey := some "key"
    appwriteBucket := some "bucket"
    githubToken := some "token"
    githubRepo := some "user/repo" }

/-- A credential store whose file exists but lacks the GitHub token. -/
def configMissingToken : ServiceConfig :=
  { fullServiceConfig with githubToken := none }

/-- Concrete run: the credential file exists but a required field is
missing; everything else is healthy. -/
def envMissingTokenField : BuildEnv :=
  { configFile := some configMissingToken
    easDoc := .absent
    profile := "production"
    projectRootExists := true
    archiverOk := true
    uploadOk := true
    dispatchOk := true }

/-- Concrete run: the credential file does not exist. -/
def envNoConfigFile : BuildEnv :=
  { configFile := none
    easDoc := .absent
    profile := "production"
    projectRootExists := true
    archiverOk := true
    uploadOk := true
    dispatchOk := true }

/-- Concrete run: the project root does not exist. -/
def envMissingRoot : BuildEnv :=
  { configFile := some fullServiceConfig
    easDoc := .absent
    profile := "production"
    projectRootExists := false
    archiverOk := true
    uploadOk := true
    dispatchOk := true }

/-- Concrete run: the storage upload fails; everything before it is
healthy. -/
def envUploadFails : BuildEnv :=
  { configFile := some fullServiceConfig
    easDoc := .absent
    profile := "production"
    projectRootExists := true
    archiverOk := true
    uploadOk := false
    dispatchOk := true }

theorem applyDevelopmentClient_variant (pc : ProfileConfig) (c : BuildConfig) :
    (applyDevelopmentClient pc c).variant =
      if pc.developmentClient.strictEqTrue then "debug" else c.variant := by
  unfold applyDevelopmentClient; split <;> rfl

theorem applyDevelopmentClient_buildType (pc : ProfileConfig) (c : BuildConfig) :
    (applyDevelopmentClient pc c).buildType = c.buildType := by
  unfold applyDevelopmentClient; split <;> rfl

theorem applyDevelopmentClient_gradleCommand (pc : ProfileConfig) (c : BuildConfig) :
    (applyDevelopmentClient pc c).gradleCommand = c.gradleCommand := by
  unfold applyDevelopmentClient; split <;> rfl

theorem applyDevelopmentClient_autoIncrement (pc : ProfileConfig) (c : BuildConfig) :
    (applyDevelopmentClient pc c).autoIncrement = c.autoIncrement := by
  unfold applyDevelopmentClient; split <;> rfl

theorem applyDistribution_variant (pc : ProfileConfig) (c : BuildConfig) :
    (applyDistribution pc c).variant = c.variant := by
  unfold applyDistribution; split <;> rfl

theorem applyDistribution_buildType (pc : ProfileConfig) (c : BuildConfig) :
    (applyDistribution pc c).buildType = c.buildType := by
  unfold applyDistribution; split <;> rfl

theorem applyDistribution_gradleCommand (pc : ProfileConfig) (c : BuildConfig) :
    (applyDistribution pc c).gradleCommand = c.gradleCommand := by
  unfold applyDistribution; split <;> rfl

theorem applyDistribution_autoIncrement (pc : ProfileConfig) (c : BuildConfig) :
    (applyDistribution pc c).autoIncrement = c.autoIncrement := by
  unfold applyDistribution; split <;> rfl

theorem applyAndroid_variant (pc : ProfileConfig) (c : BuildConfig) :
    (applyAndroid pc c).variant = c.variant := by
  unfold applyAndroid
  cases pc.android with
  | none => rfl
  | some a => dsimp only; split <;> split <;> rfl

theorem applyAndroid_autoIncrement (pc : ProfileConfig) (c : BuildConfig) :
    (applyAndroid pc c).autoIncrement = c.autoIncrement := by
  unfold applyAndroid
  cases pc.android with
  | none => rfl
  | some a => dsimp only; split <;> split <;> rfl

theorem applyAndroid_buildType (pc : ProfileConfig) (c : BuildConfig) :
    (applyAndroid pc c).buildType =
      match pc.android with
      | some a => if optStrTruthy a.buildType then a.buildType.getD "" else c.buildType
      | none => c.buildType := by
  unfold applyAndroid
  cases pc.android with
  | none => rfl
  | some a => dsimp only; split <;> split <;> rfl

theorem applyAndroid_gradleCommand (pc : ProfileConfig) (c : BuildConfig) :
    (applyAndroid pc c).gradleCommand =
      match pc.android with
      | some a => if optStrTruthy a.gradleCommand then a.gradleCommand else c.gradleCommand
      | none => c.gradleCommand := by
  unfold applyAndroid
  cases pc.android with
  | none => rfl
  | some a => dsimp only; split <;> split <;> rfl

theorem applyEnv_variant (pc : ProfileConfig) (c : BuildConfig) :
    (applyEnv pc c).variant = c.variant := by
  unfold applyEnv; cases pc.env <;> rfl

theorem applyEnv_buildType (pc : ProfileConfig) (c : BuildConfig) :
    (applyEnv pc c).buildType = c.buildType := by
  unfold applyEnv; cases pc.env <;> rfl

theorem applyEnv_gradleCommand (pc : ProfileConfig) (c : BuildConfig) :
    (applyEnv pc c).gradleCommand = c.gradleCommand := by
  unfold applyEnv; cases pc.env <;> rfl

theorem applyEnv_autoIncrement (pc : ProfileConfig) (c : BuildConfig) :
    (applyEnv pc c).autoIncrement = c.autoIncrement := by
  unfold applyEnv; cases pc.env <;> rfl

theorem applyAutoIncrement_variant (pc : ProfileConfig) (c : BuildConfig) :
    (applyAutoIncrement pc c).variant = c.variant := by
  unfold applyAutoIncrement; split <;> rfl

theorem applyAutoIncrement_buildType (pc : ProfileConfig) (c : BuildConfig) :
    (applyAutoIncrement pc c).buildType = c.buildType := by
  unfold applyAutoIncrement; split <;> rfl

theorem applyAutoIncrement_gradleCommand (pc : ProfileConfig) (c : BuildConfig) :
    (applyAutoIncrement pc c).gradleCommand = c.gradleCommand := by
  unfold applyAutoIncrement; split <;> rfl

theorem applyAutoIncrement_autoIncrement (pc : ProfileConfig) (c : BuildConfig) :
    (applyAutoIncrement pc c).autoIncrement =
      (pc.autoIncrement.strictEqTrue || c.autoIncrement) := by
  unfold applyAutoIncrement
  cases h : pc.autoIncrement.strictEqTrue <;> simp [h]

theorem mpc_variant (pc : ProfileConfig) :
    (mapProfileToConfig (some pc)).variant =
      if pc.developmentClient.strictEqTrue then "debug" else "release" := by
  unfold mapProfileToConfig
  rw [applyAutoIncrement_variant, applyEnv_variant, applyAndroid_variant,
    applyDistribution_variant, applyDevelopmentClient_variant]
  simp [defaultBuildConfig]

theorem mpc_buildType (pc : ProfileConfig) :
    (mapProfileToConfig (some pc)).buildType =
      match pc.android with
      | some a => if optStrTruthy a.buildType then a.buildType.getD "" else "apk"
      | none => "apk" := by
  unfold mapProfileToConfig
  rw [applyAutoIncrement_buildType, applyEnv_buildType, applyAndroid_buildType,
    applyDistribution_buildType, applyDevelopmentClient_buildType]
  simp [defaultBuildConfig]

theorem mpc_gradleCommand (pc : ProfileConfig) :
    (mapProfileToConfig (some pc)).gradleCommand =
      match pc.android with
      | some a => if optStrTruthy a.gradleCommand then a.gradleCommand else none
      | none => none := by
  unfold mapProfileToConfig
  rw [applyAutoIncrement_gradleCommand, applyEnv_gradleCommand, applyAndroid_gradleCommand,
    applyDistribution_gradleCommand, applyDevelopmentClient_gradleCommand]
  simp [defaultBuildConfig]

theorem mpc_autoIncrement (pc : ProfileConfig) :
    (mapProfileToConfig (some pc)).autoIncrement = pc.autoIncrement.strictEqTrue := by
  unfold mapProfileToConfig
  rw [applyAutoIncrement_autoIncrement, applyEnv_autoIncrement, applyAndroid_autoIncrement,
    applyDistribution_autoIncrement, applyDevelopmentClient_autoIncrement]
  simp [defaultBuildConfig]

theorem getGradleCommand_of_some (c : BuildConfig) (s : String)
    (h : c.gradleCommand = some s) (hs : s ≠ "") : getGradleCommand c = s := by
  unfold getGradleCommand
  simp [optStrTruthy, h, hs]

theorem getGradleCommand_of_none (c : BuildConfig) (h : c.gradleCommand = none) :
    getGradleCommand c =
      if c.buildType = "aab" then "bundle" ++ capitalizeFirst c.variant
      else "assemble" ++ capitalizeFirst c.variant := by
  unfold getGradleCommand
  simp [optStrTruthy, h]

theorem mpc_gradleCommand_ne_empty (pc : ProfileConfig) (s : String)
    (h : (mapProfileToConfig (some pc)).gradleCommand = some s) : s ≠ "" := by
  rw [mpc_gradleCommand] at h
  rcases ha : pc.android with _ | a
  · rw [ha] at h; simp at h
  · rw [ha] at h
    dsimp only at h
    by_cases ht : optStrTruthy a.gradleCommand = true
    · rw [if_pos ht] at h
      rw [h] at ht
      simpa [optStrTruthy] using ht
    · rw [if_neg ht] at h; simp at h

/-- C1: for every build configuration produced by the profile mapping that
lacks an explicit command, getGradleCommand is total and returns one of the
four canonical strings assembleRelease, assembleDebug, bundleRelease,
bundleDebug; for every configuration whose gradleCommand is set, it returns
that string unchanged (identity law). -/
theorem derive_total_and_identity (pc : Option ProfileConfig) :
    ((mapProfileToConfig pc).gradleCommand = none →
      getGradleCommand (mapProfileToConfig pc) ∈
        (["assembleRelease", "assembleDebug", "bundleRelease", "bundleDebug"] : List String)) ∧
    (∀ s : String, (mapProfileToConfig pc).gradleCommand = some s →
      getGradleCommand (mapProfileToConfig pc) = s) := by
  constructor
  · intro h
    rw [getGradleCommand_of_none _ h]
    rcases pc with _ | p
    · decide
    · have hv := mpc_variant p
      by_cases hd : p.developmentClient.strictEqTrue = true
      · rw [if_pos hd] at hv
        rw [hv]
        split <;> decide
      · rw [if_neg hd] at hv
        rw [hv]
        split <;> decide
  · intro s h
    rcases pc with _ | p
    · simp [mapProfileToConfig, defaultBuildConfig] at h
    · exact getGradleCommand_of_some _ _ h (mpc_gradleCommand_ne_empty p s h)

/-- C1 witness: concrete instantiation at the development-client profile,
whose derived command is indeed among the four canonical values. -/
theorem derive_total_and_identity_witness :
    getGradleCommand (mapProfileToConfig (some { developmentClient := .bool true })) ∈
      (["assembleRelease", "assembleDebug", "bundleRelease", "bundleDebug"] : List String) :=
  (derive_total_and_identity (some { developmentClient := .bool true })).1 (by decide)

/-- C2 counterexample: a profile whose android buildType is the
unrecognized value xyz produces a BuildConfig whose buildType IS xyz, so an
unrecognized buildType does appear in the resulting spec (no ConfigError,
no degradation to the default apk value in the stored field). -/
theorem buildType_not_validated :
    (mapProfileToConfig (some { android := some { buildType := some "xyz" } })).buildType
        = "xyz" ∧
    ("xyz" : String) ∉ (["apk", "aab"] : List String) := by
  constructor
  · decide
  · decide

/-- C2 amended: a set (truthy) android buildType is copied verbatim into
the BuildConfig with no validation and no error; only command derivation
degrades, treating every value other than aab as the assemble (apk) case. -/
theorem buildType_verbatim_derivation_degrades (pc : ProfileConfig) (a : AndroidProfile)
    (bt : String) (ha : pc.android = some a) (hbt : a.buildType = some bt) (hne : bt ≠ "") :
    (mapProfileToConfig (some pc)).buildType = bt ∧
    (a.gradleCommand = none → bt ≠ "aab" →
      getGradleCommand (mapProfileToConfig (some pc)) =
        "assemble" ++ capitalizeFirst (mapProfileToConfig (some pc)).variant) := by
  have hb : (mapProfileToConfig (some pc)).buildType = bt := by
    rw [mpc_buildType, ha]
    dsimp only
    rw [hbt]
    simp [optStrTruthy, hne]
  refine ⟨hb, ?_⟩
  intro hgc hnaab
  have hg : (mapProfileToConfig (some pc)).gradleCommand = none := by
    rw [mpc_gradleCommand, ha]
    dsimp only
    rw [hgc]
    simp [optStrTruthy]
  rw [getGradleCommand_of_none _ hg, hb, if_neg hnaab]

/-- C2 witness: concrete instantiation of the amended claim at the
unrecognized buildType xyz. -/
theorem buildType_verbatim_witness :
    (mapProfileToConfig (some { android := some { buildType := some "xyz" } })).buildType
      = "xyz" :=
  (buildType_verbatim_derivation_degrades { android := some { buildType := some "xyz" } }
    { buildType := some "xyz" } "xyz" rfl rfl (by decide)).1

/-- C3: for every profile that sets both a truthy android gradleCommand
and a truthy android buildType, the derived command equals the explicit
command verbatim regardless of buildType, while the BuildConfig buildType
and the dispatched payload build_type still carry the declared build
type. -/
theorem explicit_command_wins (pc : ProfileConfig) (a : AndroidProfile) (bt gc : String)
    (sourceUrl buildId : String) (ha : pc.android = some a) (hbt : a.buildType = some bt)
    (hgc : a.gradleCommand = some gc) (h1 : bt ≠ "") (h2 : gc ≠ "") :
    getGradleCommand (mapProfileToConfig (some pc)) = gc ∧
    (mapProfileToConfig (some pc)).buildType = bt ∧
    (mkPayload sourceUrl buildId (mapProfileToConfig (some pc))).gradle_command = gc ∧
    (mkPayload sourceUrl buildId (mapProfileToConfig (some pc))).build_type = bt := by
  have hb : (mapProfileToConfig (some pc)).buildType = bt := by
    rw [mpc_buildType, ha]
    dsimp only
    rw [hbt]
    simp [optStrTruthy, h1]
  have hg : (mapProfileToConfig (some pc)).gradleCommand = some gc := by
    rw [mpc_gradleCommand, ha]
    dsimp only
    rw [hgc]
    simp [optStrTruthy, h2]
  have hcmd := getGradleCommand_of_some _ _ hg h2
  exact ⟨hcmd, hb, hcmd, hb⟩

/-- C3 witness: concrete instantiation at buildType aab with explicit
command customTask; the derived command is customTask. -/
theorem explicit_command_wins_witness :
    getGradleCommand (mapProfileToConfig
      (some { android := some { buildType := some "aab", gradleCommand := some "customTask" } }))
      = "customTask" :=
  (explicit_command_wins
    { android := some { buildType := some "aab", gradleCommand := some "customTask" } }
    { buildType := some "aab", gradleCommand := some "customTask" }
    "aab" "customTask" "u" "1" rfl rfl rfl (by decide) (by decide)).1

/-- C4: whenever the eas.json document is absent, not parseable, or does
not contain the requested profile name, the resolver yields exactly the
default BuildConfig (release, apk, internal, no auto-increment, empty env,
no explicit command), with no error path anywhere (all functions are
total). -/
theorem missing_profile_defaults (doc : EasDocState) (profile : String)
    (h : doc = .absent ∨ doc = .unparseable ∨
      lookupProfile (loadEasConfig doc) profile = none) :
    mapProfileToConfig (lookupProfile (loadEasConfig doc) profile) = defaultBuildConfig := by
  have hnone : lookupProfile (loadEasConfig doc) profile = none := by
    rcases h with h | h | h
    · rw [h]; rfl
    · rw [h]; rfl
    · exact h
  rw [hnone]
  rfl

/-- C4 witness: concrete instantiation with the document absent. -/
theorem missing_profile_defaults_witness :
    mapProfileToConfig (lookupProfile (loadEasConfig .absent) "production")
      = defaultBuildConfig :=
  missing_profile_defaults .absent "production" (Or.inl rfl)

/-- C5 counterexample: a .buildignore file that exists but parses to zero
patterns does NOT replace the defaults: the effective excludes equal the
built-in default list, not the (empty) parsed override list. -/
theorem override_without_patterns_not_effective :
    parseBuildIgnore "# cache dirs" = [] ∧
    effectiveExcludes (some "# cache dirs") [] = defaultExcludeList ∧
    defaultExcludeList ≠ ([] : List String) := by
  refine ⟨by decide, by decide, by decide⟩

/-- C5 amended: when the .buildignore file exists AND parses to at least
one pattern, the effective excludes are exactly the parsed override
patterns followed by the caller-supplied patterns, with the built-in
defaults not applied. -/
theorem override_replaces_defaults (content : String) (callers : List String)
    (h : parseBuildIgnore content ≠ []) :
    effectiveExcludes (some content) callers = parseBuildIgnore content ++ callers := by
  unfold effectiveExcludes
  cases hp : parseBuildIgnore content with
  | nil => exact absurd hp h
  | cons x xs => simp [hp]

/-- C5 witness: concrete instantiation with one pattern parsed from the
override file and one caller pattern. -/
theorem override_replaces_defaults_witness :
    effectiveExcludes (some "node_modules/\n# c") ["extra/**"] =
      parseBuildIgnore "node_modules/\n# c" ++ ["extra/**"] :=
  override_replaces_defaults "node_modules/\n# c" ["extra/**"] (by decide)

/-- C10: if .buildignore exists but yields zero effective patterns, the
packager falls back to the built-in default exclusion set (with caller
patterns appended); the override replaces the defaults exactly when at
least one pattern is parsed. -/
theorem empty_override_falls_back (content : String) (callers : List String) :
    (parseBuildIgnore content = [] →
      effectiveExcludes (some content) callers = defaultExcludeList ++ callers) ∧
    (parseBuildIgnore content ≠ [] →
      effectiveExcludes (some content) callers = parseBuildIgnore content ++ callers) := by
  constructor
  · intro h
    unfold effectiveExcludes
    simp [h]
  · intro h
    unfold effectiveExcludes
    cases hp : parseBuildIgnore content with
    | nil => exact absurd hp h
    | cons x xs => simp [hp]

/-- C10 witness: concrete instantiation with a comment-only override file:
the defaults are used. -/
theorem empty_override_falls_back_witness :
    effectiveExcludes (some "#only-a-comment") ["app/**"] =
      defaultExcludeList ++ ["app/**"] :=
  (empty_override_falls_back "#only-a-comment" ["app/**"]).1 (by decide)

/-- C6 counterexample: a configuration store whose file exists but lacks
the GitHub token fails the six-field validation, yet the enhanced pipeline
still reaches the Resolving phase: loadConfig only checks that the file
exists, so a missing required field does not abort before Resolving. -/
theorem missing_field_reaches_resolving :
    (runBuild envMissingTokenField).reachedResolving = true ∧
    validateConfig configMissingToken = false := by
  refine ⟨by decide, by decide⟩

/-- C6 amended: in the enhanced pipeline only the absence of the whole
configuration file aborts before Resolving (and before any network call);
per-field validation happens only in the basic CLI, whose build action
aborts before packaging whenever any of the six required fields is
absent or empty. -/
theorem config_abort_behavior :
    (∀ env : BuildEnv, env.configFile = none →
      (runBuild env).reachedResolving = false ∧ (runBuild env).uploadAttempted = false ∧
      (runBuild env).success = false) ∧
    (∀ (cf : Option ServiceConfig) (pe ao uo dk : Bool),
      validateConfig (basicLoadConfig cf) = false →
      (runBasicBuild cf pe ao uo dk).packagingAttempted = false ∧
      (runBasicBuild cf pe ao uo dk).uploadAttempted = false ∧
      (runBasicBuild cf pe ao uo dk).success = false) := by
  constructor
  · intro env h
    unfold runBuild
    rw [h]
    exact ⟨rfl, rfl, rfl⟩
  · intro cf pe ao uo dk h
    unfold runBasicBuild
    rw [h]
    exact ⟨rfl, rfl, rfl⟩

/-- C6 witness: concrete instantiation with the configuration file
absent: the enhanced pipeline never reaches Resolving. -/
theorem config_abort_behavior_witness :
    (runBuild envNoConfigFile).reachedResolving = false :=
  ((config_abort_behavior).1 envNoConfigFile rfl).1

/-- C7 counterexample: a concrete run whose project root does not exist
still attempts the storage upload in the enhanced pipeline: packageProject
has no root-existence check and the glob of a nonexistent directory
matches nothing, so an empty archive is finalized and the network call IS
made — there is no PathError before the upload. -/
theorem upload_attempted_on_missing_root :
    envMissingRoot.projectRootExists = false ∧
    (runBuild envMissingRoot).uploadAttempted = true := by
  refine ⟨by decide, by decide⟩

/-- C7 amended: the enhanced pipeline is insensitive to whether the
project root exists (packageProject performs no such check and the glob
swallows a missing directory), and whenever the configuration file is
present and the archiver does not error it proceeds to attempt the
upload; only the basic CLI, whose readdirSync throws on a nonexistent
root, fails before any network call is attempted. -/
theorem no_root_check_before_network :
    (∀ env : BuildEnv, runBuild env = runBuild { env with projectRootExists := true }) ∧
    (∀ env : BuildEnv, env.configFile ≠ none → env.archiverOk = true →
      (runBuild env).uploadAttempted = true) ∧
    (∀ (cf : Option ServiceConfig) (ao uo dk : Bool),
      (runBasicBuild cf false ao uo dk).uploadAttempted = false ∧
      (runBasicBuild cf false ao uo dk).dispatchAttempted = false) := by
  refine ⟨?_, ?_, ?_⟩
  · intro env
    unfold runBuild
    rfl
  · intro env hcf ha
    unfold runBuild
    cases hc : env.configFile with
    | none => exact absurd hc hcf
    | some c =>
      dsimp only [loadConfig]
      rw [ha]
      split_ifs with h1 h2 h3 <;> simp_all
  · intro cf ao uo dk
    unfold runBasicBuild
    split_ifs with h1 h2 h3 h4 <;> simp_all

/-- C7 witness: concrete instantiation of the amended claim at the
missing-root run: the upload is attempted anyway. -/
theorem no_root_check_before_network_witness :
    (runBuild envMissingRoot).uploadAttempted = true :=
  (no_root_check_before_network).2.1 envMissingRoot (by decide) rfl

/-- C8 counterexample: profiles whose autoIncrement is the truthy
non-boolean 1 or the truthy string yes yield autoIncrement = false in the
BuildConfig, because the code compares with strict equality to true rather
than coercing to truthiness. -/
theorem autoIncrement_not_truthiness :
    (mapProfileToConfig (some { autoIncrement := .num 1 })).autoIncrement = false ∧
    JSValue.truthy (.num 1) = true ∧
    (mapProfileToConfig (some { autoIncrement := .str "yes" })).autoIncrement = false ∧
    JSValue.truthy (.str "yes") = true := by
  refine ⟨by decide, by decide, by decide, by decide⟩

/-- C8 amended: the BuildConfig autoIncrement flag equals the strict
comparison of the profile value with boolean true; every other value,
truthy or not, leaves it false. -/
theorem autoIncrement_strict_equality (pc : ProfileConfig) :
    (mapProfileToConfig (some pc)).autoIncrement = pc.autoIncrement.strictEqTrue :=
  mpc_autoIncrement pc

/-- C9 counterexample: when the storage upload fails, the enhanced
pipeline terminates in the failed state WITHOUT attempting deletion of the
local temporary archive: the catch block only logs and exits. -/
theorem archive_kept_on_upload_failure :
    (runBuild envUploadFails).uploadAttempted = true ∧
    (runBuild envUploadFails).archiveDeleted = false ∧
    (runBuild envUploadFails).success = false := by
  refine ⟨by decide, by decide, by decide⟩

/-- C9 amended: in both CLIs the local temporary archive (basic CLI: its
temporary directory) is removed exactly on the success path, after a
successful dispatch; on packaging, upload, or dispatch failure no deletion
is attempted. -/
theorem archive_deleted_only_on_success :
    (∀ env : BuildEnv, (runBuild env).archiveDeleted = (runBuild env).success) ∧
    (∀ (cf : Option ServiceConfig) (pe ao uo dk : Bool),
      (runBasicBuild cf pe ao uo dk).tempDirRemoved =
        (runBasicBuild cf pe ao uo dk).success) := by
  constructor
  · intro env
    unfold runBuild
    cases env.configFile with
    | none => rfl
    | some c => dsimp only [loadConfig]; split_ifs <;> rfl
  · intro cf pe ao uo dk
    unfold runBasicBuild
    split_ifs <;> rfl
